import Mathlib

/-!
Shallow embedding of the backend routing and resilience core of the
`brainpro` repository: the per-backend circuit breaker
(`src/circuit_breaker.rs`), the provider health registry
(`src/provider_health.rs`), the privacy scanner, audit log and ZDR
filtering (`src/privacy.rs`), and the jittered retry backoff
(`src/llm.rs`).

Modelling conventions:
* Rust `u32`/`u64`/`usize` counters are modelled as `Nat` (the tracked
  quantities stay far below the wrap boundary in every scenario the
  theorems quantify over).
* `std::time::Instant` (monotonic clock) is modelled as a `Nat` number
  of seconds passed explicitly to each operation; `Instant::elapsed`
  and `saturating_duration_since` become truncated `Nat` subtraction,
  which has exactly the saturating behaviour of the source.
* Rust `f64` arithmetic (`avg_latency`, `jittered_backoff`) is modelled
  over `ℚ`; the `as u64` cast of a non-negative value is `Int.toNat` of
  the floor.
* Mutation behind `RwLock` becomes explicit state passing: each
  operation takes the state and returns the updated state (paired with
  the returned value where the source returns one).
* A Rust panic (the `% 0` reachable in `ProviderState::add_latency`
  when the configured window is zero) is modelled by returning `none`.
* The per-backend `HashMap`s inside the registries are modelled as
  functions `String → Option σ`; `entry(..).or_default()` becomes
  `(m b).getD default` followed by a pointwise update.
-/

/-! ## Circuit breaker (`src/circuit_breaker.rs`) -/

/-- `CircuitState` from `src/circuit_breaker.rs`. -/
inductive CircuitState where
  | Closed
  | Open
  | HalfOpen
deriving DecidableEq, Repr

/-- `CircuitBreakerConfig` from `src/circuit_breaker.rs`. -/
structure CircuitBreakerConfig where
  failure_threshold : Nat
  recovery_timeout_secs : Nat
  half_open_probes : Nat
  enabled : Bool
deriving DecidableEq, Repr

/-- `CircuitBreakerConfig::default` (`serde` defaults). -/
def CircuitBreakerConfig.default : CircuitBreakerConfig :=
  { failure_threshold := 5
    recovery_timeout_secs := 30
    half_open_probes := 3
    enabled := true }

/-- `CircuitBreakerState` from `src/circuit_breaker.rs`. -/
structure CircuitBreakerState where
  state : CircuitState
  consecutive_failures : Nat
  consecutive_successes : Nat
  last_failure_time : Option Nat
  total_failures : Nat
  total_successes : Nat
  total_rejections : Nat
deriving DecidableEq, Repr

/-- `CircuitBreakerState::default`. -/
def CircuitBreakerState.default : CircuitBreakerState :=
  { state := CircuitState.Closed
    consecutive_failures := 0
    consecutive_successes := 0
    last_failure_time := none
    total_failures := 0
    total_successes := 0
    total_rejections := 0 }

/-- `CircuitBreakerDecision` from `src/circuit_breaker.rs`. -/
inductive CircuitBreakerDecision where
  | Allow
  | Reject
  | Probe
deriving DecidableEq, Repr

namespace CircuitBreaker

/-- `CircuitBreaker::check`: admission decision, plus the updated state
(the source mutates the state behind the lock; `now` is the monotonic
clock at the call). -/
def check (cfg : CircuitBreakerConfig) (s : CircuitBreakerState) (now : Nat) :
    CircuitBreakerDecision × CircuitBreakerState :=
  if cfg.enabled = false then (CircuitBreakerDecision.Allow, s)
  else
    match s.state with
    | CircuitState.Closed => (CircuitBreakerDecision.Allow, s)
    | CircuitState.Open =>
      match s.last_failure_time with
      | some last_failure =>
        if cfg.recovery_timeout_secs ≤ now - last_failure then
          (CircuitBreakerDecision.Probe,
           { s with state := CircuitState.HalfOpen, consecutive_successes := 0 })
        else
          (CircuitBreakerDecision.Reject,
           { s with total_rejections := s.total_rejections + 1 })
      | none =>
        (CircuitBreakerDecision.Reject,
         { s with total_rejections := s.total_rejections + 1 })
    | CircuitState.HalfOpen => (CircuitBreakerDecision.Probe, s)

/-- `CircuitBreaker::record_success`. -/
def record_success (cfg : CircuitBreakerConfig) (s : CircuitBreakerState) :
    CircuitBreakerState :=
  if cfg.enabled = false then s
  else
    let s1 := { s with total_successes := s.total_successes + 1,
                       consecutive_failures := 0 }
    match s1.state with
    | CircuitState.Closed => s1
    | CircuitState.HalfOpen =>
      let s2 := { s1 with consecutive_successes := s1.consecutive_successes + 1 }
      if cfg.half_open_probes ≤ s2.consecutive_successes then
        { s2 with state := CircuitState.Closed, consecutive_successes := 0 }
      else s2
    | CircuitState.Open => { s1 with state := CircuitState.Closed }

/-- `CircuitBreaker::record_failure` (`now` is the monotonic clock at the
call, stored into `last_failure_time`). -/
def record_failure (cfg : CircuitBreakerConfig) (s : CircuitBreakerState) (now : Nat) :
    CircuitBreakerState :=
  if cfg.enabled = false then s
  else
    let s1 := { s with total_failures := s.total_failures + 1,
                       consecutive_failures := s.consecutive_failures + 1,
                       consecutive_successes := 0,
                       last_failure_time := some now }
    match s1.state with
    | CircuitState.Closed =>
      if cfg.failure_threshold ≤ s1.consecutive_failures then
        { s1 with state := CircuitState.Open }
      else s1
    | CircuitState.HalfOpen => { s1 with state := CircuitState.Open }
    | CircuitState.Open => s1

end CircuitBreaker

/-- `CircuitBreakerRegistry`: config plus the per-backend map (lazily
populated; missing entries behave as `CircuitBreakerState.default`). -/
structure CircuitBreakerRegistry where
  config : CircuitBreakerConfig
  breakers : String → Option CircuitBreakerState

namespace CircuitBreakerRegistry

/-- `CircuitBreakerRegistry::record_success` (get-or-create, then the
breaker-level recorder). -/
def record_success (r : CircuitBreakerRegistry) (backend : String) :
    CircuitBreakerRegistry :=
  let s := (r.breakers backend).getD CircuitBreakerState.default
  { r with breakers := fun b =>
      if b = backend then some (CircuitBreaker.record_success r.config s)
      else r.breakers b }

/-- `CircuitBreakerRegistry::record_failure`. -/
def record_failure (r : CircuitBreakerRegistry) (backend : String) (now : Nat) :
    CircuitBreakerRegistry :=
  let s := (r.breakers backend).getD CircuitBreakerState.default
  { r with breakers := fun b =>
      if b = backend then some (CircuitBreaker.record_failure r.config s now)
      else r.breakers b }

/-- `CircuitBreakerRegistry::is_open`: present breaker in `Open` state,
`false` for an untracked backend (`unwrap_or(false)`). -/
def is_open (r : CircuitBreakerRegistry) (backend : String) : Bool :=
  match r.breakers backend with
  | some s => decide (s.state = CircuitState.Open)
  | none => false

end CircuitBreakerRegistry

/-! ## Provider health (`src/provider_health.rs`) -/

/-- `HealthState` from `src/provider_health.rs`. -/
inductive HealthState where
  | Healthy
  | Degraded
  | Unhealthy
deriving DecidableEq, Repr

/-- `HealthConfig` from `src/provider_health.rs`. -/
structure HealthConfig where
  degraded_latency_ms : Nat
  degraded_failure_count : Nat
  unhealthy_failure_count : Nat
  cooldown_secs : Nat
  latency_window : Nat
deriving DecidableEq, Repr

/-- `HealthConfig::default` (`serde` defaults). -/
def HealthConfig.default : HealthConfig :=
  { degraded_latency_ms := 5000
    degraded_failure_count := 2
    unhealthy_failure_count := 5
    cooldown_secs := 60
    latency_window := 10 }

/-- `ProviderState` from `src/provider_health.rs`. Timestamps are the
monotonic clock in seconds. -/
structure ProviderState where
  consecutive_failures : Nat
  consecutive_successes : Nat
  recent_latencies : List Nat
  latency_index : Nat
  total_requests : Nat
  successful_requests : Nat
  failed_requests : Nat
  last_success : Option Nat
  last_failure : Option Nat
  cooldown_until : Option Nat
deriving DecidableEq, Repr

/-- `ProviderState::default` (all-zero / empty). -/
def ProviderState.default : ProviderState :=
  { consecutive_failures := 0
    consecutive_successes := 0
    recent_latencies := []
    latency_index := 0
    total_requests := 0
    successful_requests := 0
    failed_requests := 0
    last_success := none
    last_failure := none
    cooldown_until := none }

namespace ProviderState

/-- `ProviderState::add_latency`. Under capacity, push; at capacity,
overwrite slot `latency_index % window_size` and bump the index. When
`window_size = 0` the at-capacity branch is taken with an empty buffer
and the Rust source evaluates `latency_index % 0`, which panics:
modelled as `none`. -/
def add_latency (s : ProviderState) (latency_ms : Nat) (window_size : Nat) :
    Option ProviderState :=
  if s.recent_latencies.length < window_size then
    some { s with recent_latencies := s.recent_latencies ++ [latency_ms] }
  else if window_size = 0 then none
  else
    some { s with
      recent_latencies := s.recent_latencies.set (s.latency_index % window_size) latency_ms,
      latency_index := s.latency_index + 1 }

/-- `ProviderState::avg_latency`: unweighted mean of the entries present,
`0.0` for an empty ring (`f64` modelled as `ℚ`). -/
def avg_latency (s : ProviderState) : ℚ :=
  if s.recent_latencies.isEmpty then 0
  else (s.recent_latencies.sum : ℚ) / (s.recent_latencies.length : ℚ)

/-- `ProviderState::is_in_cooldown` (`now` is the monotonic clock). -/
def is_in_cooldown (s : ProviderState) (now : Nat) : Bool :=
  match s.cooldown_until with
  | some cooldown => decide (now < cooldown)
  | none => false

/-- `ProviderState::compute_state`: derived health, computed on read. -/
def compute_state (s : ProviderState) (config : HealthConfig) (now : Nat) :
    HealthState :=
  if s.is_in_cooldown now then HealthState.Unhealthy
  else if config.unhealthy_failure_count ≤ s.consecutive_failures then
    HealthState.Unhealthy
  else if config.degraded_failure_count ≤ s.consecutive_failures then
    HealthState.Degraded
  else if (config.degraded_latency_ms : ℚ) < s.avg_latency then
    HealthState.Degraded
  else HealthState.Healthy

end ProviderState

/-- `ProviderHealth` from `src/provider_health.rs`: the externalized
snapshot returned by `get_health_info` (timestamps in wall-clock Unix
seconds). -/
structure ProviderHealth where
  backend : String
  state : HealthState
  consecutive_failures : Nat
  avg_latency_ms : ℚ
  total_requests : Nat
  successful_requests : Nat
  failed_requests : Nat
  last_success : Option Nat
  last_failure : Option Nat
  cooldown_until : Option Nat
deriving DecidableEq, Repr

/-- `ProviderHealthRegistry`: config, per-backend map, optional linked
circuit-breaker registry. -/
structure ProviderHealthRegistry where
  config : HealthConfig
  providers : String → Option ProviderState
  circuit_breakers : Option CircuitBreakerRegistry

namespace ProviderHealthRegistry

/-- `ProviderHealthRegistry::new`: stores the config unchanged, empty
provider map, no circuit breakers. The source performs no validation of
the config whatsoever (it returns `Self`, not a `Result`). -/
def new (config : HealthConfig) : ProviderHealthRegistry :=
  { config := config
    providers := fun _ => none
    circuit_breakers := none }

/-- `ProviderHealthRegistry::record_success`. The source mutates the
entry in order: bump totals, zero `consecutive_failures`, stamp
`last_success`, `add_latency` (which panics when the configured window
is zero — propagated here as `none`), clear `cooldown_until`, then
mirror to the circuit breakers. -/
def record_success (reg : ProviderHealthRegistry) (backend : String)
    (latency_ms : Nat) (now : Nat) : Option ProviderHealthRegistry :=
  let s := (reg.providers backend).getD ProviderState.default
  let s1 := { s with
    total_requests := s.total_requests + 1,
    successful_requests := s.successful_requests + 1,
    consecutive_successes := s.consecutive_successes + 1,
    consecutive_failures := 0,
    last_success := some now }
  match s1.add_latency latency_ms reg.config.latency_window with
  | none => none
  | some s2 =>
    let s3 := { s2 with cooldown_until := none }
    some { reg with
      providers := fun b => if b = backend then some s3 else reg.providers b,
      circuit_breakers :=
        reg.circuit_breakers.map (fun cb => cb.record_success backend) }

/-- `ProviderHealthRegistry::record_failure`: bump totals and
`consecutive_failures`, stamp `last_failure`, set `cooldown_until` when
the new failure count reaches `unhealthy_failure_count`, then mirror to
the circuit breakers. -/
def record_failure (reg : ProviderHealthRegistry) (backend : String)
    (now : Nat) : ProviderHealthRegistry :=
  let s := (reg.providers backend).getD ProviderState.default
  let s1 := { s with
    total_requests := s.total_requests + 1,
    failed_requests := s.failed_requests + 1,
    consecutive_failures := s.consecutive_failures + 1,
    consecutive_successes := 0,
    last_failure := some now }
  let s2 :=
    if reg.config.unhealthy_failure_count ≤ s1.consecutive_failures then
      { s1 with cooldown_until := some (now + reg.config.cooldown_secs) }
    else s1
  { reg with
    providers := fun b => if b = backend then some s2 else reg.providers b,
    circuit_breakers :=
      reg.circuit_breakers.map (fun cb => cb.record_failure backend now) }

/-- `ProviderHealthRegistry::get_health`. -/
def get_health (reg : ProviderHealthRegistry) (backend : String) (now : Nat) :
    HealthState :=
  match reg.providers backend with
  | some s => s.compute_state reg.config now
  | none => HealthState.Healthy

/-- `ProviderHealthRegistry::get_health_info`. `now_mono` is the
monotonic clock (for `compute_state` and the remaining cooldown),
`now_unix` the wall clock read at the top of the call. The source maps
the *stored* `last_success`/`last_failure` instants to the wall-clock
time of this call (`.map(|_| now_unix)`), and reports `cooldown_until`
as `now_unix` plus the remaining cooldown
(`saturating_duration_since`, i.e. truncated subtraction). -/
def get_health_info (reg : ProviderHealthRegistry) (backend : String)
    (now_mono : Nat) (now_unix : Nat) : ProviderHealth :=
  match reg.providers backend with
  | some s =>
    { backend := backend
      state := s.compute_state reg.config now_mono
      consecutive_failures := s.consecutive_failures
      avg_latency_ms := s.avg_latency
      total_requests := s.total_requests
      successful_requests := s.successful_requests
      failed_requests := s.failed_requests
      last_success := s.last_success.map (fun _ => now_unix)
      last_failure := s.last_failure.map (fun _ => now_unix)
      cooldown_until := s.cooldown_until.map (fun c => now_unix + (c - now_mono)) }
  | none =>
    { backend := backend
      state := HealthState.Healthy
      consecutive_failures := 0
      avg_latency_ms := 0
      total_requests := 0
      successful_requests := 0
      failed_requests := 0
      last_success := none
      last_failure := none
      cooldown_until := none }

/-- `ProviderHealthRegistry::is_available`: circuit breaker first, then
cooldown, then derived health; untracked backends are assumed
available. -/
def is_available (reg : ProviderHealthRegistry) (backend : String)
    (now : Nat) : Bool :=
  if (match reg.circuit_breakers with
      | some cb => cb.is_open backend
      | none => false) then false
  else
    match reg.providers backend with
    | some s =>
      if s.is_in_cooldown now then false
      else decide (s.compute_state reg.config now ≠ HealthState.Unhealthy)
    | none => true

end ProviderHealthRegistry

/-! ## Privacy (`src/privacy.rs`) -/

/-- `PrivacyLevel` from `src/privacy.rs`. -/
inductive PrivacyLevel where
  | Standard
  | Sensitive
  | Strict
deriving DecidableEq, Repr

namespace PrivacyLevel

/-- `PrivacyLevel::requires_zdr`. -/
def requires_zdr (l : PrivacyLevel) : Bool :=
  decide (l = PrivacyLevel.Strict)

/-- `PrivacyLevel::prefers_zdr` (`matches!(self, Sensitive | Strict)`). -/
def prefers_zdr (l : PrivacyLevel) : Bool :=
  match l with
  | PrivacyLevel.Sensitive => true
  | PrivacyLevel.Strict => true
  | PrivacyLevel.Standard => false

end PrivacyLevel

/-- One compiled strict pattern: its source text (what the Rust
`Regex::to_string` reports) and its match predicate. The regex engine is
abstracted: the source compiles each pattern with an `(?i)` prefix, so
the predicate already incorporates case-insensitive matching. -/
structure CompiledPattern where
  source : String
  is_match : String → Bool

/-- `CompiledPatterns::find_matches`: the source strings of the patterns
that match the text, in pattern order. -/
def find_matches (patterns : List CompiledPattern) (text : String) : List String :=
  (patterns.filter (fun p => p.is_match text)).map (fun p => p.source)

/-- `PrivacyScanResult` from `src/privacy.rs`. -/
structure PrivacyScanResult where
  level : PrivacyLevel
  sensitive_detected : Bool
  matched_patterns : List String
  escalated : Bool
deriving DecidableEq, Repr

/-- `PrivacyScanner::scan`. `default_level` is `config.default_level`;
`patterns` the process-wide compiled pattern set the source obtains via
`get_compiled_patterns`. Any match escalates to `Strict`; escalation is
flagged unless the default was already `Strict`. -/
def scan (default_level : PrivacyLevel) (patterns : List CompiledPattern)
    (prompt : String) : PrivacyScanResult :=
  let matched := find_matches patterns prompt
  let sensitive_detected := !matched.isEmpty
  let level_escalated : PrivacyLevel × Bool :=
    if sensitive_detected then
      if default_level = PrivacyLevel.Strict then (PrivacyLevel.Strict, false)
      else (PrivacyLevel.Strict, true)
    else (default_level, false)
  { level := level_escalated.1
    sensitive_detected := sensitive_detected
    matched_patterns := matched
    escalated := level_escalated.2 }

/-- `ZdrViolation` from `src/privacy.rs`. -/
structure ZdrViolation where
  timestamp : Nat
  privacy_level : PrivacyLevel
  backend : String
  backend_has_zdr : Bool
  matched_patterns : List String
deriving DecidableEq, Repr

/-- `PrivacyAuditLog::record_violation`: append one violation record iff
the level prefers ZDR and the backend lacks it; otherwise leave the log
unchanged. `timestamp` is the wall clock read inside the call. -/
def record_violation (violations : List ZdrViolation)
    (privacy_level : PrivacyLevel) (backend : String)
    (backend_has_zdr : Bool) (matched_patterns : List String)
    (timestamp : Nat) : List ZdrViolation :=
  if privacy_level.prefers_zdr && !backend_has_zdr then
    violations ++ [{ timestamp := timestamp
                     privacy_level := privacy_level
                     backend := backend
                     backend_has_zdr := backend_has_zdr
                     matched_patterns := matched_patterns }]
  else violations

/-- `filter_zdr_backends` from `src/privacy.rs`: pass through verbatim
unless ZDR is required; otherwise keep only candidates mapped to `true`
(missing entries default to `false` via `unwrap_or(false)`). -/
def filter_zdr_backends (backends : List String)
    (backend_zdr_map : String → Option Bool) (require_zdr : Bool) :
    List String :=
  if require_zdr = false then backends
  else backends.filter (fun b => (backend_zdr_map b).getD false)

/-! ## Jittered backoff (`src/llm.rs`) -/

/-- `MAX_BACKOFF_MS` from `src/llm.rs`. -/
def MAX_BACKOFF_MS : Nat := 60000

/-- `JITTER_FACTOR` from `src/llm.rs` (`0.3`). -/
def JITTER_FACTOR : ℚ := 3 / 10

/-- `jittered_backoff` from `src/llm.rs`, with the uniform draw
`rng.gen_range(0.0..JITTER_FACTOR)` made an explicit argument `u`
(so `0 ≤ u < JITTER_FACTOR`): add `u * base` to the base, truncate the
`f64` back to an integer (`as u64`, i.e. floor for non-negative
values), cap at `MAX_BACKOFF_MS`. `f64` arithmetic is modelled as
exact `ℚ` arithmetic. -/
def jittered_backoff (base_ms : Nat) (u : ℚ) : Nat :=
  let jitter : ℚ := u * (base_ms : ℚ)
  let jittered : ℚ := (base_ms : ℚ) + jitter
  min (Int.toNat (Int.floor jittered)) MAX_BACKOFF_MS

/-! ## Specification-side definitions

These are written from the words of `spec.md`, for comparison with the
definitions above translated from the source. -/

/-- Modelled from the spec (§4.2 Health classification), for comparison
with `ProviderState.compute_state`: "1. If `cooldown_until` set and
`now < cooldown_until` → Unhealthy. 2. Else if `consecutive_failures ≥
unhealthy_failure_count` → Unhealthy. 3. Else if `consecutive_failures
≥ degraded_failure_count` → Degraded. 4. Else if
`avg(recent_latencies) > degraded_latency_ms` → Degraded. 5. Else →
Healthy." -/
def health_classification_spec (s : ProviderState) (config : HealthConfig)
    (now : Nat) : HealthState :=
  match s.cooldown_until with
  | some cooldown =>
    if now < cooldown then HealthState.Unhealthy
    else if s.consecutive_failures ≥ config.unhealthy_failure_count then
      HealthState.Unhealthy
    else if s.consecutive_failures ≥ config.degraded_failure_count then
      HealthState.Degraded
    else if s.avg_latency > (config.degraded_latency_ms : ℚ) then
      HealthState.Degraded
    else HealthState.Healthy
  | none =>
    if s.consecutive_failures ≥ config.unhealthy_failure_count then
      HealthState.Unhealthy
    else if s.consecutive_failures ≥ config.degraded_failure_count then
      HealthState.Degraded
    else if s.avg_latency > (config.degraded_latency_ms : ℚ) then
      HealthState.Degraded
    else HealthState.Healthy

/-! ## Concrete instances used by witnesses -/

/-- A concrete ZDR map (the one from the source's own test
`test_filter_zdr_backends`). -/
def zdr_map_example : String → Option Bool := fun b =>
  if b = "claude" then some true
  else if b = "chatgpt" then some false
  else if b = "ollama" then some true
  else none

/-- A concrete compiled pattern used by witnesses: the regex engine is
abstracted, so this matcher fires exactly on one password-bearing
prompt. -/
def password_pattern : CompiledPattern :=
  { source := "(?i)password"
    is_match := fun text => decide (text = "Please update the password field") }

/-- A concrete provider-health registry holding one tracked backend,
used by witnesses. -/
def health_registry_example : ProviderHealthRegistry :=
  { config := HealthConfig.default
    providers := fun b =>
      if b = "claude" then
        some { ProviderState.default with
                 last_success := some 17, last_failure := some 3,
                 cooldown_until := some 50 }
      else none
    circuit_breakers := none }

/-! ## Helper lemmas -/

theorem record_failure_counters (cfg : CircuitBreakerConfig)
    (s : CircuitBreakerState) (now : Nat) (hen : cfg.enabled = true) :
    (CircuitBreaker.record_failure cfg s now).consecutive_failures =
        s.consecutive_failures + 1 ∧
    (CircuitBreaker.record_failure cfg s now).last_failure_time = some now := by
  cases s with
  | mk st cf cs lft tf tsu tr =>
    cases st <;> simp [CircuitBreaker.record_failure, hen]
    split <;> simp

theorem record_failure_state_of_closed (cfg : CircuitBreakerConfig)
    (s : CircuitBreakerState) (now : Nat) (hen : cfg.enabled = true)
    (hst : s.state = CircuitState.Closed) :
    (CircuitBreaker.record_failure cfg s now).state =
      (if cfg.failure_threshold ≤ s.consecutive_failures + 1 then
        CircuitState.Open else CircuitState.Closed) := by
  cases s with
  | mk st cf cs lft tf tsu tr =>
    simp only at hst
    subst hst
    simp [CircuitBreaker.record_failure, hen]
    split <;> simp

theorem record_failure_state_of_open (cfg : CircuitBreakerConfig)
    (s : CircuitBreakerState) (now : Nat) (hen : cfg.enabled = true)
    (hst : s.state = CircuitState.Open) :
    (CircuitBreaker.record_failure cfg s now).state = CircuitState.Open := by
  cases s with
  | mk st cf cs lft tf tsu tr =>
    simp only at hst
    subst hst
    simp [CircuitBreaker.record_failure, hen]

theorem check_of_open (cfg : CircuitBreakerConfig) (s : CircuitBreakerState)
    (now tl : Nat) (hen : cfg.enabled = true)
    (hst : s.state = CircuitState.Open)
    (hlft : s.last_failure_time = some tl) :
    CircuitBreaker.check cfg s now =
      (if cfg.recovery_timeout_secs ≤ now - tl then
        (CircuitBreakerDecision.Probe,
         { s with state := CircuitState.HalfOpen, consecutive_successes := 0 })
      else
        (CircuitBreakerDecision.Reject,
         { s with total_rejections := s.total_rejections + 1 })) := by
  cases s with
  | mk st cf cs lft tf tsu tr =>
    simp only at hst hlft
    subst hst
    subst hlft
    simp [CircuitBreaker.check, hen]


theorem foldl_record_failure (cfg : CircuitBreakerConfig) (hen : cfg.enabled = true) :
    ∀ (ts : List Nat) (s : CircuitBreakerState),
      s.state = CircuitState.Closed ∨ s.state = CircuitState.Open →
      ((ts.foldl (fun a t => CircuitBreaker.record_failure cfg a t) s).consecutive_failures
          = s.consecutive_failures + ts.length) ∧
      (∀ tl, ts.getLast? = some tl →
        (ts.foldl (fun a t => CircuitBreaker.record_failure cfg a t) s).last_failure_time
          = some tl) ∧
      ((ts.foldl (fun a t => CircuitBreaker.record_failure cfg a t) s).state
          = CircuitState.Open ↔
        (s.state = CircuitState.Open ∨
          (cfg.failure_threshold ≤ s.consecutive_failures + ts.length ∧ ts ≠ []))) ∧
      ((ts.foldl (fun a t => CircuitBreaker.record_failure cfg a t) s).state
          = CircuitState.Closed ∨
       (ts.foldl (fun a t => CircuitBreaker.record_failure cfg a t) s).state
          = CircuitState.Open)
  | [], s, hs => ⟨by simp, by simp, by simp, hs⟩
  | t :: ts, s, hs => by
    have hcf := (record_failure_counters cfg s t hen).1
    have hlft := (record_failure_counters cfg s t hen).2
    rcases hs with hclosed | hopen
    · have hstep := record_failure_state_of_closed cfg s t hen hclosed
      by_cases hth : cfg.failure_threshold ≤ s.consecutive_failures + 1
      · rw [if_pos hth] at hstep
        obtain ⟨ih1, ih2, ih3, ih4⟩ :=
          foldl_record_failure cfg hen ts (CircuitBreaker.record_failure cfg s t)
            (Or.inr hstep)
        refine ⟨?_, ?_, ?_, ?_⟩
        · rw [List.foldl_cons, ih1, hcf]
          simp only [List.length_cons]
          omega
        · intro tl htl
          rw [List.foldl_cons]
          cases ts with
          | nil =>
            simp only [List.foldl_nil]
            simp only [List.getLast?_singleton, Option.some.injEq] at htl
            rw [hlft, htl]
          | cons t2 ts2 =>
            rw [List.getLast?_cons_cons] at htl
            exact ih2 tl htl
        · refine ⟨fun _ => Or.inr ⟨?_, by simp⟩, fun _ => ?_⟩
          · simp only [List.length_cons]
            omega
          · rw [List.foldl_cons, ih3]
            exact Or.inl hstep
        · rw [List.foldl_cons]
          exact ih4
      · rw [if_neg hth] at hstep
        obtain ⟨ih1, ih2, ih3, ih4⟩ :=
          foldl_record_failure cfg hen ts (CircuitBreaker.record_failure cfg s t)
            (Or.inl hstep)
        refine ⟨?_, ?_, ?_, ?_⟩
        · rw [List.foldl_cons, ih1, hcf]
          simp only [List.length_cons]
          omega
        · intro tl htl
          rw [List.foldl_cons]
          cases ts with
          | nil =>
            simp only [List.foldl_nil]
            simp only [List.getLast?_singleton, Option.some.injEq] at htl
            rw [hlft, htl]
          | cons t2 ts2 =>
            rw [List.getLast?_cons_cons] at htl
            exact ih2 tl htl
        · constructor
          · intro h
            rw [List.foldl_cons, ih3, hcf] at h
            rcases h with h | h
            · rw [hstep] at h
              exact absurd h (by simp)
            · refine Or.inr ⟨?_, by simp⟩
              simp only [List.length_cons]
              omega
          · intro h
            rcases h with h | h
            · rw [hclosed] at h
              exact absurd h (by simp)
            · obtain ⟨hle, -⟩ := h
              simp only [List.length_cons] at hle
              have hlen : 0 < ts.length := by omega
              rw [List.foldl_cons, ih3, hcf]
              refine Or.inr ⟨by omega, ?_⟩
              intro hnil
              rw [hnil] at hlen
              exact absurd hlen (by simp)
        · rw [List.foldl_cons]
          exact ih4
    · have hstep := record_failure_state_of_open cfg s t hen hopen
      obtain ⟨ih1, ih2, ih3, ih4⟩ :=
        foldl_record_failure cfg hen ts (CircuitBreaker.record_failure cfg s t)
          (Or.inr hstep)
      refine ⟨?_, ?_, ?_, ?_⟩
      · rw [List.foldl_cons, ih1, hcf]
        simp only [List.length_cons]
        omega
      · intro tl htl
        rw [List.foldl_cons]
        cases ts with
        | nil =>
          simp only [List.foldl_nil]
          simp only [List.getLast?_singleton, Option.some.injEq] at htl
          rw [hlft, htl]
        | cons t2 ts2 =>
          rw [List.getLast?_cons_cons] at htl
          exact ih2 tl htl
      · refine ⟨fun _ => Or.inl hopen, fun _ => ?_⟩
        rw [List.foldl_cons, ih3]
        exact Or.inl hstep
      · rw [List.foldl_cons]
        exact ih4

/-- C1 (amended: additionally assuming `failure_threshold ≥ 1`, stated
here as the existence of a last recorded failure, which forces the
failure list nonempty and hence the threshold positive): for an enabled
breaker, after `failure_threshold` consecutive `record_failure` calls
(at arbitrary monotonic times `ts`) starting from `Closed`
(`CircuitBreakerState.default`), the state is `Open`; the next `check`
returns `Probe` iff at least `recovery_timeout_secs` elapsed since the
last recorded failure, in which case that `check` itself moves the state
to `HalfOpen`; otherwise it returns `Reject` and increments
`total_rejections`. -/
theorem circuit_breaker_trip_then_check (cfg : CircuitBreakerConfig)
    (hen : cfg.enabled = true)
    (ts : List Nat) (hlen : ts.length = cfg.failure_threshold)
    (tlast now : Nat) (hlast : ts.getLast? = some tlast) :
    ((ts.foldl (fun a t => CircuitBreaker.record_failure cfg a t)
        CircuitBreakerState.default).state = CircuitState.Open) ∧
    ((CircuitBreaker.check cfg
        (ts.foldl (fun a t => CircuitBreaker.record_failure cfg a t)
          CircuitBreakerState.default) now).1 = CircuitBreakerDecision.Probe ↔
      cfg.recovery_timeout_secs ≤ now - tlast) ∧
    (cfg.recovery_timeout_secs ≤ now - tlast →
      (CircuitBreaker.check cfg
        (ts.foldl (fun a t => CircuitBreaker.record_failure cfg a t)
          CircuitBreakerState.default) now).2.state = CircuitState.HalfOpen) ∧
    (now - tlast < cfg.recovery_timeout_secs →
      (CircuitBreaker.check cfg
        (ts.foldl (fun a t => CircuitBreaker.record_failure cfg a t)
          CircuitBreakerState.default) now).1 = CircuitBreakerDecision.Reject ∧
      (CircuitBreaker.check cfg
        (ts.foldl (fun a t => CircuitBreaker.record_failure cfg a t)
          CircuitBreakerState.default) now).2.total_rejections =
        (ts.foldl (fun a t => CircuitBreaker.record_failure cfg a t)
          CircuitBreakerState.default).total_rejections + 1) := by
  obtain ⟨ih1, ih2, ih3, -⟩ :=
    foldl_record_failure cfg hen ts CircuitBreakerState.default (Or.inl rfl)
  have hnil : ts ≠ [] := by
    intro h
    rw [h] at hlast
    exact absurd hlast (by simp)
  have hopen : (ts.foldl (fun a t => CircuitBreaker.record_failure cfg a t)
      CircuitBreakerState.default).state = CircuitState.Open := by
    rw [ih3]
    refine Or.inr ⟨?_, hnil⟩
    simp only [CircuitBreakerState.default]
    omega
  have hlft := ih2 tlast hlast
  have hcheck := check_of_open cfg
    (ts.foldl (fun a t => CircuitBreaker.record_failure cfg a t)
      CircuitBreakerState.default) now tlast hen hopen hlft
  refine ⟨hopen, ?_, ?_, ?_⟩
  · rw [hcheck]
    by_cases h : cfg.recovery_timeout_secs ≤ now - tlast
    · simp [h]
    · simp [h]
  · intro h
    rw [hcheck, if_pos h]
  · intro h
    rw [hcheck, if_neg (by omega)]
    exact ⟨rfl, rfl⟩

/-- C1 counterexample to the unamended claim: an enabled breaker with
`failure_threshold = 0`. After `failure_threshold = 0` consecutive
`record_failure` calls the state is still `Closed`, not `Open`, and the
next `check` returns `Allow`, not `Reject` or `Probe`. -/
theorem circuit_breaker_trip_counterexample :
    ¬ ((([] : List Nat).foldl
        (fun a t => CircuitBreaker.record_failure
          { failure_threshold := 0, recovery_timeout_secs := 30,
            half_open_probes := 3, enabled := true } a t)
        CircuitBreakerState.default).state = CircuitState.Open) ∧
    (CircuitBreaker.check
      { failure_threshold := 0, recovery_timeout_secs := 30,
        half_open_probes := 3, enabled := true }
      (([] : List Nat).foldl
        (fun a t => CircuitBreaker.record_failure
          { failure_threshold := 0, recovery_timeout_secs := 30,
            half_open_probes := 3, enabled := true } a t)
        CircuitBreakerState.default) 0).1 = CircuitBreakerDecision.Allow := by
  constructor
  · decide
  · decide

/-- C1 witness: threshold 2, failures at times 5 and 9, check at 100
(recovery window 30 has elapsed). -/
theorem circuit_breaker_trip_then_check_witness :
    (([5, 9] : List Nat).foldl
      (fun a t => CircuitBreaker.record_failure
        { failure_threshold := 2, recovery_timeout_secs := 30,
          half_open_probes := 3, enabled := true } a t)
      CircuitBreakerState.default).state = CircuitState.Open ∧
    (CircuitBreaker.check
      { failure_threshold := 2, recovery_timeout_secs := 30,
        half_open_probes := 3, enabled := true }
      (([5, 9] : List Nat).foldl
        (fun a t => CircuitBreaker.record_failure
          { failure_threshold := 2, recovery_timeout_secs := 30,
            half_open_probes := 3, enabled := true } a t)
        CircuitBreakerState.default) 100).1 = CircuitBreakerDecision.Probe := by
  have h := circuit_breaker_trip_then_check
    { failure_threshold := 2, recovery_timeout_secs := 30,
      half_open_probes := 3, enabled := true }
    rfl [5, 9] rfl 9 100 (by decide)
  exact ⟨h.1, h.2.1.mpr (by decide)⟩

/-- C2: if any compiled strict pattern matches the prompt, `scan`
returns level `Strict` with `sensitive_detected = true`, and
`escalated = true` exactly when the configured default level was not
already `Strict`; if no pattern matches, `scan` returns the configured
default level with `sensitive_detected = false` and
`escalated = false`. (Case-insensitivity lives inside each compiled
pattern's match predicate, as the source compiles every pattern with an
`(?i)` prefix.) -/
theorem privacy_scan_spec (default_level : PrivacyLevel)
    (patterns : List CompiledPattern) (prompt : String) :
    ((∃ p ∈ patterns, p.is_match prompt = true) →
      (scan default_level patterns prompt).level = PrivacyLevel.Strict ∧
      (scan default_level patterns prompt).sensitive_detected = true ∧
      ((scan default_level patterns prompt).escalated = true ↔
        default_level ≠ PrivacyLevel.Strict)) ∧
    ((∀ p ∈ patterns, p.is_match prompt = false) →
      (scan default_level patterns prompt).level = default_level ∧
      (scan default_level patterns prompt).sensitive_detected = false ∧
      (scan default_level patterns prompt).escalated = false) := by
  constructor
  · rintro ⟨p, hp, hm⟩
    have hne : (find_matches patterns prompt).isEmpty = false := by
      simp only [find_matches, List.isEmpty_eq_false_iff_exists_mem, List.mem_map,
        List.mem_filter]
      exact ⟨p.source, p, ⟨hp, hm⟩, rfl⟩
    by_cases hd : default_level = PrivacyLevel.Strict
    · subst hd
      simp [scan, hne]
    · simp [scan, hne, hd]
  · intro hall
    have he : (find_matches patterns prompt).isEmpty = true := by
      simp only [find_matches, List.isEmpty_iff, List.map_eq_nil_iff,
        List.filter_eq_nil_iff]
      intro p hp
      simp [hall p hp]
    simp [scan, he]

/-- C2 witness: the default-`Standard` scanner on a prompt containing
`password` escalates to `Strict`. -/
theorem privacy_scan_spec_witness :
    (scan PrivacyLevel.Standard [password_pattern]
      "Please update the password field").level = PrivacyLevel.Strict ∧
    (scan PrivacyLevel.Standard [password_pattern]
      "Please update the password field").escalated = true := by
  have h := (privacy_scan_spec PrivacyLevel.Standard [password_pattern]
    "Please update the password field").1
    ⟨password_pattern, by simp, by decide⟩
  exact ⟨h.1, h.2.2.mpr (by decide)⟩

/-- C3: the derived health state is computed on read with exactly the
spec's five-rule precedence (`health_classification_spec` is transcribed
from §4.2 of the spec), and an empty latency ring averages to `0`. -/
theorem compute_state_precedence (s : ProviderState) (config : HealthConfig)
    (now : Nat) :
    s.compute_state config now = health_classification_spec s config now ∧
    (s.recent_latencies = [] → s.avg_latency = 0) := by
  constructor
  · unfold ProviderState.compute_state health_classification_spec
      ProviderState.is_in_cooldown
    cases h : s.cooldown_until with
    | none => simp [ge_iff_le, gt_iff_lt]
    | some cooldown =>
      by_cases hc : now < cooldown
      · simp [hc, ge_iff_le, gt_iff_lt]
      · simp [hc, ge_iff_le, gt_iff_lt]
  · intro h
    simp [ProviderState.avg_latency, h]

/-- C3 witness: concrete evaluation of both classification functions and
of the empty-ring average. -/
theorem compute_state_precedence_witness :
    ProviderState.default.avg_latency = 0 ∧
    ProviderState.default.compute_state HealthConfig.default 0 =
      health_classification_spec ProviderState.default HealthConfig.default 0 := by
  have h := compute_state_precedence ProviderState.default HealthConfig.default 0
  exact ⟨h.2 rfl, h.1⟩

/-- C6: with `require_zdr = false` the candidate list is returned
verbatim; with `require_zdr = true` the result is the order-preserving
subsequence of candidates mapped to `true`, candidates missing from the
map being dropped. -/
theorem filter_zdr_backends_spec (xs : List String)
    (m : String → Option Bool) :
    filter_zdr_backends xs m false = xs ∧
    (filter_zdr_backends xs m true).Sublist xs ∧
    filter_zdr_backends xs m true =
      xs.filter (fun b => decide (m b = some true)) ∧
    (∀ b, m b = none → b ∉ filter_zdr_backends xs m true) := by
  have hfilter : filter_zdr_backends xs m true =
      xs.filter (fun b => decide (m b = some true)) := by
    have hunfold : filter_zdr_backends xs m true =
        xs.filter (fun b => (m b).getD false) := by
      simp [filter_zdr_backends]
    rw [hunfold]
    apply List.filter_congr
    intro b _
    cases hb : m b with
    | none => simp
    | some v => cases v <;> simp
  refine ⟨by simp [filter_zdr_backends], ?_, hfilter, ?_⟩
  · rw [hfilter]
    exact List.filter_sublist xs
  · intro b hb hmem
    rw [hfilter] at hmem
    have := (List.mem_filter.mp hmem).2
    simp [hb] at this

/-- C6 witness: the source's own test vector — `chatgpt` (mapped to
`false`) is filtered out, `vllm` (absent from the map) is filtered out,
order is preserved. -/
theorem filter_zdr_backends_spec_witness :
    filter_zdr_backends ["claude", "chatgpt", "ollama"] zdr_map_example true =
      ["claude", "ollama"] ∧
    "vllm" ∉ filter_zdr_backends ["claude", "vllm", "ollama"] zdr_map_example true := by
  constructor
  · rw [(filter_zdr_backends_spec ["claude", "chatgpt", "ollama"] zdr_map_example).2.2.1]
    decide
  · exact (filter_zdr_backends_spec ["claude", "vllm", "ollama"]
      zdr_map_example).2.2.2 "vllm" (by decide)

/-- C8: `record_violation` appends exactly one violation entry iff the
privacy level prefers ZDR (`Sensitive` or `Strict`) and the backend has
no ZDR; otherwise the log is returned unchanged. -/
theorem record_violation_iff (log : List ZdrViolation)
    (privacy_level : PrivacyLevel) (backend : String) (backend_has_zdr : Bool)
    (matched_patterns : List String) (timestamp : Nat) :
    (privacy_level.prefers_zdr = true ∧ backend_has_zdr = false →
      record_violation log privacy_level backend backend_has_zdr
          matched_patterns timestamp =
        log ++ [{ timestamp := timestamp, privacy_level := privacy_level,
                  backend := backend, backend_has_zdr := backend_has_zdr,
                  matched_patterns := matched_patterns }]) ∧
    (¬ (privacy_level.prefers_zdr = true ∧ backend_has_zdr = false) →
      record_violation log privacy_level backend backend_has_zdr
          matched_patterns timestamp = log) := by
  cases privacy_level <;> cases backend_has_zdr <;>
    simp [record_violation, PrivacyLevel.prefers_zdr]

/-- C8 witness: `(Sensitive, non-ZDR)` appends one entry;
`(Standard, non-ZDR)` and `(Strict, ZDR)` append nothing. -/
theorem record_violation_iff_witness :
    record_violation [] PrivacyLevel.Sensitive "chatgpt" false ["password"] 7 =
      [{ timestamp := 7, privacy_level := PrivacyLevel.Sensitive,
         backend := "chatgpt", backend_has_zdr := false,
         matched_patterns := ["password"] }] ∧
    record_violation [] PrivacyLevel.Standard "chatgpt" false [] 7 = [] ∧
    record_violation [] PrivacyLevel.Strict "claude" true [] 7 = [] := by
  refine ⟨?_, ?_, ?_⟩
  · exact (record_violation_iff [] PrivacyLevel.Sensitive "chatgpt" false
      ["password"] 7).1 ⟨rfl, rfl⟩
  · exact (record_violation_iff [] PrivacyLevel.Standard "chatgpt" false
      [] 7).2 (by simp [PrivacyLevel.prefers_zdr])
  · exact (record_violation_iff [] PrivacyLevel.Strict "claude" true
      [] 7).2 (by simp)

/-- C9 (the code, at the claim's failing input): constructing a
provider-health registry with `latency_window = 0` succeeds — `new`
performs no validation and cannot report any error — and the very first
`record_success` then reaches `latency_index % 0` inside `add_latency`,
a Rust panic (modelled as `none`). -/
theorem zero_latency_window_accepted_then_panics :
    ProviderHealthRegistry.new { HealthConfig.default with latency_window := 0 } =
      { config := { HealthConfig.default with latency_window := 0 },
        providers := fun _ => none,
        circuit_breakers := none } ∧
    ProviderHealthRegistry.record_success
      (ProviderHealthRegistry.new { HealthConfig.default with latency_window := 0 })
      "claude" 100 0 = none := by
  exact ⟨rfl, rfl⟩

theorem add_latency_preserves (s : ProviderState) (latency_ms window_size : Nat)
    (s' : ProviderState) (h : s.add_latency latency_ms window_size = some s') :
    s'.consecutive_failures = s.consecutive_failures ∧
    s'.cooldown_until = s.cooldown_until := by
  unfold ProviderState.add_latency at h
  split at h
  · cases h
    exact ⟨rfl, rfl⟩
  · split at h
    · cases h
    · cases h
      exact ⟨rfl, rfl⟩


theorem record_failure_entry (reg : ProviderHealthRegistry) (backend : String)
    (now : Nat) :
    (reg.record_failure backend now).providers backend =
      some (if reg.config.unhealthy_failure_count ≤
              ((reg.providers backend).getD ProviderState.default).consecutive_failures + 1
            then
              { (reg.providers backend).getD ProviderState.default with
                  total_requests :=
                    ((reg.providers backend).getD ProviderState.default).total_requests + 1,
                  failed_requests :=
                    ((reg.providers backend).getD ProviderState.default).failed_requests + 1,
                  consecutive_failures :=
                    ((reg.providers backend).getD ProviderState.default).consecutive_failures + 1,
                  consecutive_successes := 0,
                  last_failure := some now,
                  cooldown_until := some (now + reg.config.cooldown_secs) }
            else
              { (reg.providers backend).getD ProviderState.default with
                  total_requests :=
                    ((reg.providers backend).getD ProviderState.default).total_requests + 1,
                  failed_requests :=
                    ((reg.providers backend).getD ProviderState.default).failed_requests + 1,
                  consecutive_failures :=
                    ((reg.providers backend).getD ProviderState.default).consecutive_failures + 1,
                  consecutive_successes := 0,
                  last_failure := some now }) := by
  unfold ProviderHealthRegistry.record_failure
  by_cases hcond : reg.config.unhealthy_failure_count ≤
      ((reg.providers backend).getD ProviderState.default).consecutive_failures + 1
  · simp [hcond]
  · simp [hcond]

/-- C5: completing `record_success(b, latency)` leaves backend `b` with
`consecutive_failures = 0` and `cooldown_until` unset; `record_failure`
increments `consecutive_failures` and sets `cooldown_until` to
`now + cooldown_secs` exactly when the new count reaches
`unhealthy_failure_count`, leaving it unchanged otherwise. -/
theorem health_record_transitions (reg : ProviderHealthRegistry)
    (backend : String) (latency_ms now : Nat) :
    (∀ reg', reg.record_success backend latency_ms now = some reg' →
      ∃ s', reg'.providers backend = some s' ∧
        s'.consecutive_failures = 0 ∧ s'.cooldown_until = none) ∧
    (∃ s', (reg.record_failure backend now).providers backend = some s' ∧
      s'.consecutive_failures =
        ((reg.providers backend).getD ProviderState.default).consecutive_failures + 1 ∧
      s'.cooldown_until =
        (if reg.config.unhealthy_failure_count ≤
            ((reg.providers backend).getD ProviderState.default).consecutive_failures + 1
         then some (now + reg.config.cooldown_secs)
         else ((reg.providers backend).getD ProviderState.default).cooldown_until)) := by
  constructor
  · intro reg' h
    unfold ProviderHealthRegistry.record_success at h
    simp only at h
    split at h
    · cases h
    · rename_i s2 hadd
      cases h
      refine ⟨{ s2 with cooldown_until := none }, by simp, ?_, rfl⟩
      have := (add_latency_preserves _ _ _ _ hadd).1
      simpa using this
  · refine ⟨_, record_failure_entry reg backend now, ?_, ?_⟩
    · by_cases hcond : reg.config.unhealthy_failure_count ≤
          ((reg.providers backend).getD ProviderState.default).consecutive_failures + 1
      · rw [if_pos hcond]
      · rw [if_neg hcond]
    · by_cases hcond : reg.config.unhealthy_failure_count ≤
          ((reg.providers backend).getD ProviderState.default).consecutive_failures + 1
      · rw [if_pos hcond, if_pos hcond]
      · rw [if_neg hcond, if_neg hcond]

/-- C5 witness: on a fresh registry, a success leaves the backend with
zero consecutive failures and no cooldown, and a first failure (below
the default threshold of 5) leaves the cooldown unset. -/
theorem health_record_transitions_witness :
    (∃ reg' s',
      (ProviderHealthRegistry.new HealthConfig.default).record_success
          "claude" 100 5 = some reg' ∧
      reg'.providers "claude" = some s' ∧
      s'.consecutive_failures = 0 ∧ s'.cooldown_until = none) ∧
    (∃ s',
      ((ProviderHealthRegistry.new HealthConfig.default).record_failure
          "claude" 5).providers "claude" = some s' ∧
      s'.consecutive_failures = 1 ∧ s'.cooldown_until = none) := by
  constructor
  · obtain ⟨s', h1, h2, h3⟩ :=
      (health_record_transitions (ProviderHealthRegistry.new HealthConfig.default)
        "claude" 100 5).1 _ rfl
    exact ⟨_, s', rfl, h1, h2, h3⟩
  · obtain ⟨s', h1, h2, h3⟩ :=
      (health_record_transitions (ProviderHealthRegistry.new HealthConfig.default)
        "claude" 100 5).2
    refine ⟨s', h1, by simpa using h2, ?_⟩
    rw [h3]
    decide

/-- C4: `is_available(b)` is `false` iff the attached circuit-breaker
registry (when present) reports the breaker open, or the backend's
derived health is `Unhealthy`, or the backend is in cooldown; a backend
tracked by neither registry is always available. -/
theorem is_available_iff (reg : ProviderHealthRegistry) (backend : String)
    (now : Nat) :
    (reg.is_available backend now = false ↔
      ((∃ cb, reg.circuit_breakers = some cb ∧ cb.is_open backend = true) ∨
       (∃ s, reg.providers backend = some s ∧
         (s.compute_state reg.config now = HealthState.Unhealthy ∨
          s.is_in_cooldown now = true)))) ∧
    (reg.providers backend = none →
     (∀ cb, reg.circuit_breakers = some cb → cb.breakers backend = none) →
     reg.is_available backend now = true) := by
  constructor
  · unfold ProviderHealthRegistry.is_available
    cases hcb : reg.circuit_breakers with
    | none =>
      simp only
      cases hp : reg.providers backend with
      | none => simp
      | some s =>
        by_cases hcool : s.is_in_cooldown now = true
        · simp [hcool]
        · by_cases hun : s.compute_state reg.config now = HealthState.Unhealthy
          · simp [hcool, hun]
          · simp [hcool, hun]
    | some cb =>
      by_cases hopen : cb.is_open backend = true
      · simp only [hopen, if_true]
        constructor
        · intro _
          exact Or.inl ⟨cb, rfl, hopen⟩
        · intro _
          trivial
      · have hopen' : cb.is_open backend = false := by
          cases h : cb.is_open backend
          · rfl
          · exact absurd h hopen
        simp only [hopen', if_false]
        cases hp : reg.providers backend with
        | none => simp [hopen']
        | some s =>
          by_cases hcool : s.is_in_cooldown now = true
          · simp [hcool, hopen']
          · by_cases hun : s.compute_state reg.config now = HealthState.Unhealthy
            · simp [hcool, hun, hopen']
            · simp [hcool, hun, hopen']
  · intro hp hcb
    unfold ProviderHealthRegistry.is_available
    cases h : reg.circuit_breakers with
    | none => simp [hp]
    | some cb =>
      have : cb.is_open backend = false := by
        unfold CircuitBreakerRegistry.is_open
        rw [hcb cb h]
      simp [this, hp]

/-- C4 witness: a backend unknown to a fresh registry is available. -/
theorem is_available_iff_witness :
    (ProviderHealthRegistry.new HealthConfig.default).is_available
      "unknown" 0 = true :=
  (is_available_iff (ProviderHealthRegistry.new HealthConfig.default)
    "unknown" 0).2 rfl (fun cb h => by cases h)

/-- C10 (implicit behaviour of `get_health_info`): for a tracked
backend, `last_success` and `last_failure`, when present, are reported
as the wall-clock time of the `get_health_info` call itself (the stored
occurrence time is discarded), `cooldown_until` is reported as that
wall-clock time plus the remaining cooldown, and absent timestamps stay
`none`; for an untracked backend the result is a `Healthy` record with
zero counters and no timestamps. -/
theorem get_health_info_timestamps (reg : ProviderHealthRegistry)
    (backend : String) (now_mono now_unix : Nat) :
    (∀ s, reg.providers backend = some s →
      (∀ t, s.last_success = some t →
        (reg.get_health_info backend now_mono now_unix).last_success =
          some now_unix) ∧
      (∀ t, s.last_failure = some t →
        (reg.get_health_info backend now_mono now_unix).last_failure =
          some now_unix) ∧
      (s.last_success = none →
        (reg.get_health_info backend now_mono now_unix).last_success = none) ∧
      (s.last_failure = none →
        (reg.get_health_info backend now_mono now_unix).last_failure = none) ∧
      (∀ c, s.cooldown_until = some c →
        (reg.get_health_info backend now_mono now_unix).cooldown_until =
          some (now_unix + (c - now_mono))) ∧
      (s.cooldown_until = none →
        (reg.get_health_info backend now_mono now_unix).cooldown_until = none)) ∧
    (reg.providers backend = none →
      reg.get_health_info backend now_mono now_unix =
        { backend := backend, state := HealthState.Healthy,
          consecutive_failures := 0, avg_latency_ms := 0, total_requests := 0,
          successful_requests := 0, failed_requests := 0, last_success := none,
          last_failure := none, cooldown_until := none }) := by
  constructor
  · intro s hs
    unfold ProviderHealthRegistry.get_health_info
    rw [hs]
    refine ⟨?_, ?_, ?_, ?_, ?_, ?_⟩
    · intro t ht
      simp [ht]
    · intro t ht
      simp [ht]
    · intro ht
      simp [ht]
    · intro ht
      simp [ht]
    · intro c hc
      simp [hc]
    · intro hc
      simp [hc]
  · intro hp
    unfold ProviderHealthRegistry.get_health_info
    rw [hp]

/-- C10 witness: for `health_registry_example` (stored monotonic
`last_success = 17`, `last_failure = 3`, `cooldown_until = 50`), a call
at monotonic time 20 and wall-clock time 1000 reports both
`last_success` and `last_failure` as 1000 and `cooldown_until` as
`1000 + (50 - 20)`; an untracked backend yields the empty `Healthy`
record. -/
theorem get_health_info_timestamps_witness :
    (health_registry_example.get_health_info "claude" 20 1000).last_success =
      some 1000 ∧
    (health_registry_example.get_health_info "claude" 20 1000).last_failure =
      some 1000 ∧
    (health_registry_example.get_health_info "claude" 20 1000).cooldown_until =
      some 1030 ∧
    (health_registry_example.get_health_info "other" 20 1000).last_success =
      none := by
  have h := (get_health_info_timestamps health_registry_example "claude" 20 1000).1
    ({ ProviderState.default with
         last_success := some 17, last_failure := some 3,
         cooldown_until := some 50 }) (by simp [health_registry_example])
  have h2 := (get_health_info_timestamps health_registry_example "other" 20 1000).2
    (by simp [health_registry_example])
  refine ⟨h.1 17 rfl, h.2.1 3 rfl, ?_, by rw [h2]⟩
  have := h.2.2.2.2.1 50 rfl
  simpa using this

/-- C7: for every base delay in `[0, MAX_BACKOFF_MS]` and every value
`u` the uniform draw `gen_range(0.0..JITTER_FACTOR)` can take
(`0 ≤ u < JITTER_FACTOR`), the jittered backoff satisfies
`base ≤ jittered_backoff(base, u) ≤
min(MAX_BACKOFF_MS, base * (1 + JITTER_FACTOR))`. -/
theorem jittered_backoff_bounds (base_ms : Nat) (u : ℚ)
    (hbase : base_ms ≤ MAX_BACKOFF_MS) (hu0 : 0 ≤ u)
    (hu1 : u < JITTER_FACTOR) :
    base_ms ≤ jittered_backoff base_ms u ∧
    (jittered_backoff base_ms u : ℚ) ≤
      min (MAX_BACKOFF_MS : ℚ) ((base_ms : ℚ) * (1 + JITTER_FACTOR)) := by
  have hb0 : (0 : ℚ) ≤ (base_ms : ℚ) := Nat.cast_nonneg base_ms
  have hjit0 : (0 : ℚ) ≤ u * (base_ms : ℚ) := mul_nonneg hu0 hb0
  have hq_ge : (base_ms : ℚ) ≤ (base_ms : ℚ) + u * (base_ms : ℚ) := by linarith
  have hq_le : (base_ms : ℚ) + u * (base_ms : ℚ) ≤
      (base_ms : ℚ) * (1 + JITTER_FACTOR) := by
    have := mul_le_mul_of_nonneg_right hu1.le hb0
    nlinarith
  have hfloor_lb : (base_ms : ℤ) ≤ Int.floor ((base_ms : ℚ) + u * (base_ms : ℚ)) := by
    rw [Int.le_floor]
    push_cast
    exact hq_ge
  have hfloor_nonneg : (0 : ℤ) ≤ Int.floor ((base_ms : ℚ) + u * (base_ms : ℚ)) :=
    le_trans (by positivity) hfloor_lb
  constructor
  · unfold jittered_backoff
    refine le_min ?_ hbase
    have := Int.toNat_le_toNat hfloor_lb
    simpa using this
  · unfold jittered_backoff
    refine le_min ?_ ?_
    · have h1 : min (Int.toNat (Int.floor ((base_ms : ℚ) + u * (base_ms : ℚ))))
          MAX_BACKOFF_MS ≤ MAX_BACKOFF_MS := min_le_right _ _
      exact_mod_cast h1
    · have h1 : min (Int.toNat (Int.floor ((base_ms : ℚ) + u * (base_ms : ℚ))))
          MAX_BACKOFF_MS ≤
          Int.toNat (Int.floor ((base_ms : ℚ) + u * (base_ms : ℚ))) :=
        min_le_left _ _
      have h2 : ((Int.toNat (Int.floor ((base_ms : ℚ) + u * (base_ms : ℚ)))) : ℚ) ≤
          (base_ms : ℚ) + u * (base_ms : ℚ) := by
        have h3 : ((Int.toNat (Int.floor ((base_ms : ℚ) + u * (base_ms : ℚ)))) : ℚ) =
            ((Int.floor ((base_ms : ℚ) + u * (base_ms : ℚ)) : ℤ) : ℚ) := by
          exact_mod_cast Int.toNat_of_nonneg hfloor_nonneg
        rw [h3]
        exact Int.floor_le _
      calc ((min (Int.toNat (Int.floor ((base_ms : ℚ) + u * (base_ms : ℚ))))
              MAX_BACKOFF_MS : Nat) : ℚ)
          ≤ ((Int.toNat (Int.floor ((base_ms : ℚ) + u * (base_ms : ℚ)))) : ℚ) := by
            exact_mod_cast h1
        _ ≤ (base_ms : ℚ) + u * (base_ms : ℚ) := h2
        _ ≤ (base_ms : ℚ) * (1 + JITTER_FACTOR) := hq_le

/-- C7 witness: base 1000 ms with draw `u = 1/5` gives a backoff of at
least 1000 ms and at most `min(60000, 1300)`. -/
theorem jittered_backoff_bounds_witness :
    1000 ≤ jittered_backoff 1000 (1 / 5) ∧
    (jittered_backoff 1000 (1 / 5) : ℚ) ≤
      min (MAX_BACKOFF_MS : ℚ) ((1000 : ℚ) * (1 + JITTER_FACTOR)) :=
  jittered_backoff_bounds 1000 (1 / 5)
    (by norm_num [MAX_BACKOFF_MS]) (by norm_num)
    (by norm_num [JITTER_FACTOR])
